import Mathlib

/-!
Shallow embedding of the pwnagotchi Age plugin (src/age.py, version 3.2.0-travel).

Modelling conventions:
* Python ints are `Nat`/`Int`; Python floats that the plugin uses (the streak
  bonus 1.2, the event multipliers 2.0 / 0.5 / 1.0) are modelled as exact
  fractions (`PyFloat`), and Python `int(x)` is truncation toward zero
  (`Int.tdiv`).
* Python sets are modelled as duplicate-free `List String` built by
  insert-if-absent; `set(...)` applied to a loaded list is `List.dedup`;
  set equality is extensional membership equality (`setEqBool`).
* The JSON file written by `save_data` / read by `load_data` is an
  association list of key/value pairs (`JObj`), read with first-match lookup
  and per-field defaults, exactly as the chain of `data.get(key, default)`
  calls does in the source.
* External inputs that the handlers read from the environment are explicit
  parameters: the local hour (`time.localtime().tm_hour`), the optional
  quantized GPS place string (`try_read_gps` + `quantize_ll`), the random
  outcome of `handle_random_event`, and the shape of the `on_handshake`
  arguments (argument count, and whether `args[2]` is a dict).
* UI calls (`agent.view().set`), logging and file writes are side effects with
  no influence on the progression state and are omitted.
-/

namespace AgePlugin

/-- Exact-fraction model of the Python float constants used by the plugin. -/
structure PyFloat where
  num : Int
  den : Int
deriving DecidableEq

/-- Python `int(p * f)` for an int `p` and a float `f`: multiply, then
truncate toward zero. -/
def pyMul (p : Int) (f : PyFloat) : Int := Int.tdiv (p * f.num) f.den

/-- Python float literal 1.0 (the reset value of `event_multiplier`). -/
def pyOne : PyFloat := ⟨1, 1⟩

/-- Python float literal 1.2 (`streak_bonus`, line 466). -/
def pyStreakBonus : PyFloat := ⟨12, 10⟩

/-- Python float literal 2.0 (the Lucky Break multiplier, line 417). -/
def pyTwo : PyFloat := ⟨2, 1⟩

/-- Python float literal 0.5 (the Signal Noise multiplier, line 418). -/
def pyHalf : PyFloat := ⟨1, 2⟩

/-- Python `str.lower()` (kernel-reducible replacement for `String.toLower`). -/
def strLower (s : String) : String := String.mk (s.data.map Char.toLower)

/-- Membership test of a string in a list modelling a Python set. -/
def listHas : List String → String → Bool
  | [], _ => false
  | y :: ys, x => if y = x then true else listHas ys x

/-- Python `set.add`: insert a string if it is not present yet. -/
def insertNew (l : List String) (x : String) : List String :=
  if listHas l x then l else l ++ [x]

/-- Helper for set equality: every element of the first list is in the second. -/
def allHas : List String → List String → Bool
  | [], _ => true
  | x :: xs, l => listHas l x && allHas xs l

/-- Python `==` on sets: extensional membership equality of the two lists. -/
def setEqBool (a b : List String) : Bool := allHas a b && allHas b a

/-- Python `str.split(c)` for a single-character separator, on char lists. -/
def splitChar (c : Char) : List Char → List (List Char)
  | [] => [[]]
  | x :: xs =>
    if x = c then [] :: splitChar c xs
    else
      match splitChar c xs with
      | [] => [[x]]
      | h :: t => (x :: h) :: t

/-- Python `bssid.split(':')` as a list of strings. -/
def splitColon (s : String) : List String :=
  (splitChar ':' s.data).map (fun l => String.mk l)

/-- Python `':'.join(parts)`. -/
def joinColon : List String → String
  | [] => ""
  | [x] => x
  | x :: xs => x ++ ":" ++ joinColon xs

/-- Python `':' in s`. -/
def hasColon (s : String) : Bool := s.data.contains ':'

/-- Value of a nonempty all-digit character list, `none` otherwise. -/
def digitsVal : List Char → Option Nat
  | [] => none
  | l =>
    if l.all Char.isDigit then
      some (l.foldl (fun acc c => acc * 10 + (c.toNat - 48)) 0)
    else none

/-- Python `int(s)` on a string: optional minus sign followed by digits
(`none` models the `ValueError` caught by `channel_to_band`). -/
def strToInt : String → Option Int
  | s =>
    match s.data with
    | '-' :: rest => (digitsVal rest).map (fun n => -(n : Int))
    | l => (digitsVal l).map (fun n => (n : Int))

/-- JSON values that `save_data` writes: integers, strings, arrays of strings
and `null`. -/
inductive JVal where
  | num (n : Int)
  | str (s : String)
  | arr (l : List String)
  | null
deriving DecidableEq

/-- A JSON object, as the association list of its key/value pairs. -/
def JObj := List (String × JVal)

/-- First-match key lookup in a JSON object. -/
def jget : List (String × JVal) → String → Option JVal
  | [], _ => none
  | (k', v) :: rest, k => if k' = k then some v else jget rest k

/-- Python `data.get(k, d)` read as an integer field (counters). -/
def getNat (o : List (String × JVal)) (k : String) (d : Nat) : Nat :=
  match jget o k with
  | some (.num n) => n.toNat
  | _ => d

/-- Python `data.get(k, d)` read as a signed integer field. -/
def getInt (o : List (String × JVal)) (k : String) (d : Int) : Int :=
  match jget o k with
  | some (.num n) => n
  | _ => d

/-- Python `data.get(k, d)` read as a string field. -/
def getStr (o : List (String × JVal)) (k : String) (d : String) : String :=
  match jget o k with
  | some (.str s) => s
  | _ => d

/-- Python `data.get(k, d)` read as an array-of-strings field. -/
def getArr (o : List (String × JVal)) (k : String) (d : List String) :
    List String :=
  match jget o k with
  | some (.arr l) => l
  | _ => d

/-- Python `data.get(k, None)` read as an optional string field. -/
def getOptStr (o : List (String × JVal)) (k : String) : Option String :=
  match jget o k with
  | some (.str s) => some s
  | _ => none

/-- A random bonus event (`handle_random_event`, lines 416-419). -/
structure BonusEvent where
  description : String
  multiplier : PyFloat
  handshakes : Nat
deriving DecidableEq

/-- The Lucky Break event template (line 417). -/
def luckyBreak : BonusEvent :=
  ⟨"Lucky Break: Double points for next 5 handshakes!", pyTwo, 5⟩

/-- The Signal Noise event template (line 418). -/
def signalNoise : BonusEvent :=
  ⟨"Signal Noise: Next handshake worth half points.", pyHalf, 1⟩

/-- The configurable settings the progression logic reads (`__init__` defaults
at lines 148-157, 186-189, possibly overridden in `on_loaded`). -/
structure Config where
  decay_interval : Nat
  decay_amount : Nat
  age_titles : List (Nat × String)
  strength_titles : List (Nat × String)
  travel_titles : List (Nat × String)
  points_map : List (String × Int)
  enable_travel : Bool
deriving DecidableEq

/-- The mutable progression state held on `self` (lines 137-196). -/
structure AgeState where
  epochs : Nat
  train_epochs : Nat
  network_points : Int
  handshake_count : Nat
  last_active_epoch : Nat
  prev_age_title : String
  prev_strength_title : String
  last_handshake_enc : Option String
  last_decay_points : Nat
  streak : Nat
  active_event : Option BonusEvent
  event_handshakes_left : Nat
  event_multiplier : PyFloat
  personality_aggro : Nat
  personality_stealth : Nat
  personality_scholar : Nat
  night_owl_handshakes : Nat
  enc_types_captured : List String
  travel_xp : Nat
  travel_level : Nat
  unique_essids : List String
  unique_bssids : List String
  unique_ouis : List String
  unique_channels : List String
  unique_bands : List String
  place_hashes : List String
  last_place_hash : Option String
deriving DecidableEq

/-- The state right after `__init__` (all-zero/empty defaults). -/
def initState : AgeState where
  epochs := 0
  train_epochs := 0
  network_points := 0
  handshake_count := 0
  last_active_epoch := 0
  prev_age_title := "Unborn"
  prev_strength_title := "Untrained"
  last_handshake_enc := none
  last_decay_points := 0
  streak := 0
  active_event := none
  event_handshakes_left := 0
  event_multiplier := pyOne
  personality_aggro := 0
  personality_stealth := 0
  personality_scholar := 0
  night_owl_handshakes := 0
  enc_types_captured := []
  travel_xp := 0
  travel_level := 0
  unique_essids := []
  unique_bssids := []
  unique_ouis := []
  unique_channels := []
  unique_bands := []
  place_hashes := []
  last_place_hash := none

/-- DEFAULT_AGE_TITLES (lines 68-95). -/
def defaultAgeTitles : List (Nat × String) :=
  [(100, "Cosmic Hatchling"), (200, "Byte Starling"), (275, "Signal Spark"),
   (350, "Signal Seeker"), (450, "Ping Nomad"), (600, "Packet Voyager"),
   (750, "Orbitling"), (900, "Neural Apprentice"), (1050, "Pulse Pioneer"),
   (1200, "Quantum Wanderer"), (1350, "Script Satellite"), (1500, "Code Comet"),
   (2000, "Wavelength Nomad"), (3000, "Protocol Pioneer"),
   (4000, "Data Asteroid"), (5000, "Stellar Coder"), (7000, "Encrypted Voyager"),
   (10000, "WiFi Starborn"), (15000, "Nebula Navigator"),
   (20000, "Celestial Hacker"), (30000, "Ethernaut"),
   (40000, "Binary Constellation"), (55000, "Quantum Overlord"),
   (80000, "Dark Matter Diver"), (100000, "Galactic Root"),
   (111111, "Singularity Sentinel")]

/-- DEFAULT_STRENGTH_TITLES (lines 97-116). -/
def defaultStrengthTitles : List (Nat × String) :=
  [(100, "Circuit Initiate"), (250, "Pulse Drifter"), (400, "Bitbreaker"),
   (600, "Packet Slinger"), (900, "Firewall Skipper"), (1200, "Deauth Cadet"),
   (1600, "Hash Harvester"), (2000, "Spectral Scrambler"),
   (2500, "Protocol Predator"), (3200, "Cipher Crusher"),
   (4500, "WiFi Marauder"), (6000, "Neural Nullifier"),
   (8000, "Signal Saboteur"), (12000, "Astral Sniffer"),
   (18000, "Quantum Brawler"), (30000, "Rootwave Ronin"),
   (55555, "Void Breaker"), (111111, "Omega Cipherlord")]

/-- DEFAULT_TRAVEL_TITLES (lines 118-125). -/
def defaultTravelTitles : List (Nat × String) :=
  [(0, "Homebody"), (50, "Wanderling"), (150, "City Stroller"),
   (300, "Road Warrior"), (600, "Jetsetter"), (1200, "Globetrotter")]

/-- The default configuration of `__init__` (decay 50/10, default titles, the
wpa3/wpa2/wep/wpa points map, travel enabled). -/
def defaultConfig : Config where
  decay_interval := 50
  decay_amount := 10
  age_titles := defaultAgeTitles
  strength_titles := defaultStrengthTitles
  travel_titles := defaultTravelTitles
  points_map := [("wpa3", 10), ("wpa2", 5), ("wep", 2), ("wpa", 2)]
  enable_travel := true

/-- Insert a key into a descending-sorted list of keys (one step of
`sorted(keys, reverse=True)`). -/
def insertDesc (x : Nat) : List Nat → List Nat
  | [] => [x]
  | y :: ys => if y ≤ x then x :: y :: ys else y :: insertDesc x ys

/-- Python `sorted(keys, reverse=True)`. -/
def sortDesc (l : List Nat) : List Nat := l.foldr insertDesc []

/-- Python dict lookup `titles[t]` on the threshold→label mapping. -/
def lookupKey : List (Nat × String) → Nat → Option String
  | [], _ => none
  | (k', v) :: rest, k => if k' = k then some v else lookupKey rest k

/-- Python dict lookup on the encryption→points mapping. -/
def lookupStr : List (String × Int) → String → Option Int
  | [], _ => none
  | (k', v) :: rest, k => if k' = k then some v else lookupStr rest k

/-- The shared title-resolution algorithm of `get_age_title`,
`get_strength_title` and `get_travel_title`: walk the threshold keys in
descending order and return the label of the first key not exceeding the
counter, or the floor label if every key exceeds it. -/
def resolveTitle (c : Nat) (titles : List (Nat × String)) (floorLabel : String) :
    String :=
  match (sortDesc (titles.map Prod.fst)).find? (fun t => decide (t ≤ c)) with
  | some t => (lookupKey titles t).getD floorLabel
  | none => floorLabel

/-- get_age_title (lines 246-252). -/
def get_age_title (cfg : Config) (st : AgeState) : String :=
  resolveTitle st.epochs cfg.age_titles "Unborn"

/-- get_strength_title (lines 254-260). -/
def get_strength_title (cfg : Config) (st : AgeState) : String :=
  resolveTitle st.train_epochs cfg.strength_titles "Untrained"

/-- get_travel_title (lines 671-676); its fallback is
`travel_titles.get(0, "Homebody")`. -/
def get_travel_title (cfg : Config) (st : AgeState) : String :=
  resolveTitle st.travel_xp cfg.travel_titles
    ((lookupKey cfg.travel_titles 0).getD "Homebody")

/-- apply_decay (lines 377-392).  `points_lost` is
`int((inactive_epochs / float(decay_interval)) * decay_amount)`, i.e. the
floor of the exact quotient, here `inactive * amount / interval` in `Nat`
division.  UI calls and the save are omitted. -/
def apply_decay (cfg : Config) (st : AgeState) : AgeState :=
  let inactive := st.epochs - st.last_active_epoch
  if cfg.decay_interval ≤ inactive then
    let points_lost : Nat := inactive * cfg.decay_amount / cfg.decay_interval
    let st1 :=
      { st with network_points := max 0 (st.network_points - (points_lost : Int)) }
    if 0 < points_lost then
      { st1 with
        last_decay_points := points_lost
        streak := 0
        last_active_epoch := st1.epochs }
    else st1
  else st

/-- check_achievements (lines 360-375): update the stored previous titles when
the resolved titles differ (announcements omitted). -/
def check_achievements (cfg : Config) (st : AgeState) : AgeState :=
  let current_age := get_age_title cfg st
  let current_strength := get_strength_title cfg st
  let st1 :=
    if current_age ≠ st.prev_age_title then
      { st with prev_age_title := current_age }
    else st
  if current_strength ≠ st1.prev_strength_title then
    { st1 with prev_strength_title := current_strength }
  else st1

/-- handle_random_event (lines 412-426); the 5% draw and the uniform choice
between the two templates are the environment, passed in as `outcome`
(`none` = no event triggered). -/
def handle_random_event (outcome : Option BonusEvent) (st : AgeState) :
    AgeState :=
  match outcome with
  | some e =>
    { st with
      active_event := some e
      event_handshakes_left := e.handshakes
      event_multiplier := e.multiplier }
  | none => st

/-- on_epoch (lines 394-410): advance the epoch counter, every 10th tick bump
training and the scholar trait, apply decay, update announced titles, and
every 100th tick run the random-event draw (the milestone display and the
save are omitted). -/
def on_epoch (cfg : Config) (outcome : Option BonusEvent) (st : AgeState) :
    AgeState :=
  let st1 := { st with epochs := st.epochs + 1 }
  let st2 :=
    if st1.epochs % 10 = 0 then
      { st1 with
        train_epochs := st1.train_epochs + 1
        personality_scholar := st1.personality_scholar + 1 }
    else st1
  let st3 := apply_decay cfg st2
  let st4 := check_achievements cfg st3
  if st4.epochs % 100 = 0 then handle_random_event outcome st4 else st4

/-- The AP metadata dict of `on_handshake`; `none` models an absent key (and,
for `encryption`/`bssid`, also a `None` value, both of which the source maps
to the empty string with `or ''`). -/
structure ApInfo where
  encryption : Option String
  essid : Option String
  bssid : Option String
  channel : Option String
deriving DecidableEq

/-- The third handler argument: either a dict or some non-dict value. -/
inductive ApArg where
  | dict (ap : ApInfo)
  | nondict
deriving DecidableEq

/-- Line 453: `(ap.get('encryption', '') or '').lower()`. -/
def apEnc (ap : ApInfo) : String := strLower (ap.encryption.getD "")

/-- Line 454: `ap.get('essid', 'unknown')`. -/
def apEssid (ap : ApInfo) : String := ap.essid.getD "unknown"

/-- Line 455: `(ap.get('bssid') or '').lower()`. -/
def apBssid (ap : ApInfo) : String := strLower (ap.bssid.getD "")

/-- Line 456: `ap.get('channel', '0')` (channel values modelled as strings). -/
def apChannel (ap : ApInfo) : String := ap.channel.getD "0"

/-- channel_to_band (lines 619-632). -/
def channel_to_band (channel : String) : String :=
  match strToInt channel with
  | none => "unk"
  | some ch =>
    if 1 ≤ ch ∧ ch ≤ 14 then "2.4"
    else if (32 ≤ ch ∧ ch ≤ 173) ∨
        ch ∈ ([36, 40, 44, 48, 149, 153, 157, 161, 165] : List Int) then "5"
    else if 1 ≤ ch - 191 ∧ ch - 191 ≤ 59 then "6"
    else "unk"

/-- Line 458: `':'.join(bssid.split(':')[:3]) if bssid and ':' in bssid else
None`. -/
def ouiOf (bssid : String) : Option String :=
  if bssid ≠ "" ∧ hasColon bssid then
    some (joinColon ((splitColon bssid).take 3))
  else none

/-- compute_place_hash (lines 656-669); `gps` is the quantized grid string
when `try_read_gps` + `quantize_ll` succeed, `none` otherwise. -/
def compute_place_hash (gps : Option String) (ap : ApInfo) : String :=
  match gps with
  | some place => place
  | none =>
    let bssid := apBssid ap
    let oui :=
      if bssid ≠ "" ∧ hasColon bssid then joinColon ((splitColon bssid).take 3)
      else "no:ou:i"
    let ch := apChannel ap
    let band := channel_to_band ch
    oui ++ "-" ++ band ++ "-" ++ ch

/-- bump_travel_level (lines 685-690): the level is the number of travel
thresholds not exceeding the XP, minus one, clamped at zero. -/
def bump_travel_level (cfg : Config) (st : AgeState) : AgeState :=
  let lvl := (cfg.travel_titles.map Prod.fst).countP (fun t => decide (t ≤ st.travel_xp))
  { st with travel_level := max 0 (lvl - 1) }

/-- add_travel_xp (lines 692-703): ignore non-positive gains, add the XP and
recompute the level (the level-up log line is omitted). -/
def add_travel_xp (cfg : Config) (xp : Nat) (st : AgeState) : AgeState :=
  if xp = 0 then st
  else bump_travel_level cfg { st with travel_xp := st.travel_xp + xp }

/-- Line 472 guard: `self.active_event and self.event_handshakes_left > 0`. -/
def event_active (st : AgeState) : Bool :=
  st.active_event.isSome && decide (0 < st.event_handshakes_left)

/-- Lines 461-468: base points from the encryption map (default 1), then the
streak bonus `int(points * 1.2)` once the post-increment streak reaches 5. -/
def pre_event_reward (cfg : Config) (st : AgeState) (enc : String) : Int :=
  let points : Int := (lookupStr cfg.points_map enc).getD 1
  if 5 ≤ st.streak + 1 then pyMul points pyStreakBonus else points

/-- Lines 461-473: the full reward of a capture, i.e. the streak-adjusted base
further multiplied by `int(points * event_multiplier)` while an event with
remaining uses is active. -/
def capture_reward (cfg : Config) (st : AgeState) (enc : String) : Int :=
  let points := pre_event_reward cfg st enc
  if event_active st then pyMul points st.event_multiplier else points

/-- Lines 474-477: decrement the remaining event uses; on reaching zero clear
the event and reset the multiplier to 1.0. -/
def event_after_capture (st : AgeState) :
    Option BonusEvent × Nat × PyFloat :=
  if event_active st then
    let left := st.event_handshakes_left - 1
    if left = 0 then (none, 0, pyOne)
    else (st.active_event, left, st.event_multiplier)
  else (st.active_event, st.event_handshakes_left, st.event_multiplier)

/-- Lines 503-505: first-seen ESSID, +5 XP, threading the (state, gained)
accumulator of the Traveler block. -/
def tstep_essid (essid : String) (p : AgeState × Nat) : AgeState × Nat :=
  if listHas p.1.unique_essids essid then p
  else ({ p.1 with unique_essids := p.1.unique_essids ++ [essid] }, p.2 + 5)

/-- Lines 506-508: first-seen (truthy) BSSID, +2 XP. -/
def tstep_bssid (bssid : String) (p : AgeState × Nat) : AgeState × Nat :=
  if bssid ≠ "" ∧ ¬ listHas p.1.unique_bssids bssid then
    ({ p.1 with unique_bssids := p.1.unique_bssids ++ [bssid] }, p.2 + 2)
  else p

/-- Lines 509-511: first-seen (non-None, truthy) OUI, +3 XP. -/
def tstep_oui (oui : Option String) (p : AgeState × Nat) : AgeState × Nat :=
  match oui with
  | some o =>
    if o ≠ "" ∧ ¬ listHas p.1.unique_ouis o then
      ({ p.1 with unique_ouis := p.1.unique_ouis ++ [o] }, p.2 + 3)
    else p
  | none => p

/-- Lines 512-514: first-seen (truthy) channel, +1 XP. -/
def tstep_channel (channel : String) (p : AgeState × Nat) : AgeState × Nat :=
  if channel ≠ "" ∧ ¬ listHas p.1.unique_channels channel then
    ({ p.1 with unique_channels := p.1.unique_channels ++ [channel] }, p.2 + 1)
  else p

/-- Lines 515-518: first-seen (truthy) band, +3 XP. -/
def tstep_band (band : String) (p : AgeState × Nat) : AgeState × Nat :=
  if band ≠ "" ∧ ¬ listHas p.1.unique_bands band then
    ({ p.1 with unique_bands := p.1.unique_bands ++ [band] }, p.2 + 3)
  else p

/-- Lines 520-525: first-seen place fingerprint, +10 XP, recording the last
place. -/
def tstep_place (place : String) (p : AgeState × Nat) : AgeState × Nat :=
  if ¬ listHas p.1.place_hashes place then
    ({ p.1 with
       place_hashes := p.1.place_hashes ++ [place]
       last_place_hash := some place }, p.2 + 10)
  else p

/-- Lines 501-525: the (state, gained-XP) pair after the six novelty checks of
the Traveler block, in source order. -/
def travel_gain_pair (gps : Option String) (ap : ApInfo)
    (essid bssid channel band : String) (oui : Option String) (st : AgeState) :
    AgeState × Nat :=
  tstep_place (compute_place_hash gps ap)
    (tstep_band band
      (tstep_channel channel
        (tstep_oui oui
          (tstep_bssid bssid
            (tstep_essid essid (st, 0))))))

/-- The Traveler XP block of on_handshake (lines 500-531), operating on the
locals computed at the top of the handler: when travel is enabled, run the
novelty checks and, on positive gain (lines 527-528), add the XP. -/
def travel_update (cfg : Config) (gps : Option String) (ap : ApInfo)
    (essid bssid channel band : String) (oui : Option String) (st : AgeState) :
    AgeState :=
  if cfg.enable_travel then
    let p := travel_gain_pair gps ap essid bssid channel band oui st
    if 0 < p.2 then add_travel_xp cfg p.2 p.1 else p.1
  else st

/-- Lines 453-497 of on_handshake: the reward/streak/event bookkeeping, the
night-owl check and the encryption-kind completeness check, before the
Traveler block. -/
def hs_core (cfg : Config) (hour : Nat) (ap : ApInfo) (st : AgeState) :
    AgeState :=
  let enc := apEnc ap
  let points := capture_reward cfg st enc
  let ev := event_after_capture st
  let st1 :=
    { st with
      streak := st.streak + 1
      active_event := ev.1
      event_handshakes_left := ev.2.1
      event_multiplier := ev.2.2
      network_points := st.network_points + points
      handshake_count := st.handshake_count + 1
      last_active_epoch := st.epochs
      last_handshake_enc := some enc
      personality_aggro := st.personality_aggro + 1 }
  let st2 :=
    if 2 ≤ hour ∧ hour < 4 then
      let stN :=
        { st1 with night_owl_handshakes := st1.night_owl_handshakes + 1 }
      if stN.night_owl_handshakes = 10 then
        { stN with network_points := stN.network_points + 50 }
      else stN
    else st1
  let st3 :=
    { st2 with enc_types_captured := insertNew st2.enc_types_captured enc }
  if setEqBool st3.enc_types_captured (cfg.points_map.map Prod.fst) then
    { st3 with network_points := st3.network_points + 100 }
  else st3

/-- on_handshake (lines 441-544).  `hour` is `time.localtime().tm_hour`,
`gps` the optional quantized place, `numArgs` the length of `args`, and
`arg2` the value of `args[2]` (when present).  Handlers return after a
warning when fewer than three arguments arrive or when the AP record is not
a dict; otherwise missing dict fields fall back to the `.get` defaults, and
the Traveler block runs after the core bookkeeping. -/
def on_handshake (cfg : Config) (hour : Nat) (gps : Option String)
    (numArgs : Nat) (arg2 : ApArg) (st : AgeState) : AgeState :=
  if numArgs < 3 then st
  else
    match arg2 with
    | .nondict => st
    | .dict ap =>
      travel_update cfg gps ap (apEssid ap) (apBssid ap) (apChannel ap)
        (channel_to_band (apChannel ap)) (ouiOf (apBssid ap))
        (hs_core cfg hour ap st)

/-- save_data (lines 581-614): the JSON object written to disk.  Note that
the `prev_age` / `prev_strength` entries store the *currently resolved*
titles, not the in-memory `prev_age_title` / `prev_strength_title` fields,
and that the active-event triple is not written at all. -/
def save_data (cfg : Config) (st : AgeState) : List (String × JVal) :=
  [("epochs", .num (st.epochs : Int)),
   ("train_epochs", .num (st.train_epochs : Int)),
   ("points", .num st.network_points),
   ("handshakes", .num (st.handshake_count : Int)),
   ("last_active", .num (st.last_active_epoch : Int)),
   ("prev_age", .str (get_age_title cfg st)),
   ("prev_strength", .str (get_strength_title cfg st)),
   ("streak", .num (st.streak : Int)),
   ("night_owl_handshakes", .num (st.night_owl_handshakes : Int)),
   ("enc_types_captured", .arr st.enc_types_captured),
   ("personality_aggro", .num (st.personality_aggro : Int)),
   ("personality_stealth", .num (st.personality_stealth : Int)),
   ("personality_scholar", .num (st.personality_scholar : Int)),
   ("travel_xp", .num (st.travel_xp : Int)),
   ("travel_level", .num (st.travel_level : Int)),
   ("unique_essids", .arr st.unique_essids),
   ("unique_bssids", .arr st.unique_bssids),
   ("unique_ouis", .arr st.unique_ouis),
   ("unique_channels", .arr st.unique_channels),
   ("unique_bands", .arr st.unique_bands),
   ("place_hashes", .arr st.place_hashes),
   ("last_place_hash",
    match st.last_place_hash with
    | some s => .str s
    | none => .null)]

/-- load_data (lines 549-579): read every recognized key with its default;
keys the loader does not ask for are ignored.  `set(...)` applied to a loaded
list is `List.dedup`.  The assignments run in source order on `self`, which
matters only for the `prev_age` / `prev_strength` defaults
(`self.get_age_title()` / `self.get_strength_title()`): they resolve against
the `epochs` / `train_epochs` values assigned just before, which is written
here by inlining those loaded counters into the two defaults. -/
def load_data (cfg : Config) (file : List (String × JVal)) (st : AgeState) :
    AgeState :=
  { st with
    epochs := getNat file "epochs" 0
    train_epochs := getNat file "train_epochs" 0
    network_points := getInt file "points" 0
    handshake_count := getNat file "handshakes" 0
    last_active_epoch := getNat file "last_active" 0
    prev_age_title :=
      getStr file "prev_age"
        (resolveTitle (getNat file "epochs" 0) cfg.age_titles "Unborn")
    prev_strength_title :=
      getStr file "prev_strength"
        (resolveTitle (getNat file "train_epochs" 0) cfg.strength_titles
          "Untrained")
    streak := getNat file "streak" 0
    night_owl_handshakes := getNat file "night_owl_handshakes" 0
    enc_types_captured := (getArr file "enc_types_captured" []).dedup
    personality_aggro := getNat file "personality_aggro" 0
    personality_stealth := getNat file "personality_stealth" 0
    personality_scholar := getNat file "personality_scholar" 0
    travel_xp := getNat file "travel_xp" 0
    travel_level := getNat file "travel_level" 0
    unique_essids := (getArr file "unique_essids" []).dedup
    unique_bssids := (getArr file "unique_bssids" []).dedup
    unique_ouis := (getArr file "unique_ouis" []).dedup
    unique_channels := (getArr file "unique_channels" []).dedup
    unique_bands := (getArr file "unique_bands" []).dedup
    place_hashes := (getArr file "place_hashes" []).dedup
    last_place_hash := getOptStr file "last_place_hash" }

/-- Round half to even of `a / b` on naturals (the rounding of Python float
formatting, on exact fractions). -/
def rheNat (a b : Nat) : Nat :=
  let q := a / b
  let r := a % b
  if 2 * r < b then q
  else if b < 2 * r then q + 1
  else if q % 2 = 0 then q else q + 1

/-- Python `f-string` formatting `.1f` of the exact fraction `num / den`
(nonnegative), one decimal digit. -/
def fmtFixed1 (num den : Nat) : String :=
  let t := rheNat (num * 10) den
  toString (t / 10) ++ "." ++ toString (t % 10)

/-- Python `str.rstrip('.0')`: drop trailing characters that are `'.'` or
`'0'`. -/
def rstripDotZero (s : String) : String :=
  String.mk ((s.data.reverse.dropWhile (fun c => c == '.' || c == '0')).reverse)

/-- abrev_number (lines 714-722), the `for unit in ['', 'K', 'M', 'B']` loop
unrolled for a nonnegative integer input; the running value after dividing by
`1000.0` k times is kept as the exact fraction `num / 1000^k` (the source
computes it in floating point). -/
def abrev_number (num : Nat) : String :=
  if num < 1000 then rstripDotZero (fmtFixed1 num 1 ++ "")
  else if num < 1000000 then rstripDotZero (fmtFixed1 num 1000 ++ "K")
  else if num < 1000000000 then rstripDotZero (fmtFixed1 num 1000000 ++ "M")
  else if num < 1000000000000 then
    rstripDotZero (fmtFixed1 num 1000000000 ++ "B")
  else fmtFixed1 num 1000000000000 ++ "T"

/-! ### Helper lemmas: the Traveler block leaves the core progression fields
unchanged -/

/-- Fields of the state that the Traveler block never touches. -/
def corePreserved (s t : AgeState) : Prop :=
  s.epochs = t.epochs ∧ s.train_epochs = t.train_epochs ∧
  s.network_points = t.network_points ∧
  s.handshake_count = t.handshake_count ∧
  s.last_active_epoch = t.last_active_epoch ∧ s.streak = t.streak ∧
  s.active_event = t.active_event ∧
  s.event_handshakes_left = t.event_handshakes_left ∧
  s.event_multiplier = t.event_multiplier ∧
  s.night_owl_handshakes = t.night_owl_handshakes ∧
  s.enc_types_captured = t.enc_types_captured

theorem corePreserved_refl (s : AgeState) : corePreserved s s := by
  simp [corePreserved]

theorem corePreserved_trans {a b c : AgeState} (h1 : corePreserved a b)
    (h2 : corePreserved b c) : corePreserved a c := by
  obtain ⟨e1, t1, n1, h1c, l1, s1, a1, v1, m1, o1, c1⟩ := h1
  obtain ⟨e2, t2, n2, h2c, l2, s2, a2, v2, m2, o2, c2⟩ := h2
  exact ⟨e1.trans e2, t1.trans t2, n1.trans n2, h1c.trans h2c, l1.trans l2,
    s1.trans s2, a1.trans a2, v1.trans v2, m1.trans m2, o1.trans o2,
    c1.trans c2⟩

theorem tstep_essid_core (e : String) (p : AgeState × Nat) :
    corePreserved (tstep_essid e p).1 p.1 := by
  unfold tstep_essid corePreserved
  split <;> simp

theorem tstep_bssid_core (b : String) (p : AgeState × Nat) :
    corePreserved (tstep_bssid b p).1 p.1 := by
  unfold tstep_bssid corePreserved
  split <;> simp

theorem tstep_oui_core (o : Option String) (p : AgeState × Nat) :
    corePreserved (tstep_oui o p).1 p.1 := by
  cases o with
  | none => simp [tstep_oui, corePreserved]
  | some o =>
    simp only [tstep_oui]
    unfold corePreserved
    split <;> simp

theorem tstep_channel_core (c : String) (p : AgeState × Nat) :
    corePreserved (tstep_channel c p).1 p.1 := by
  unfold tstep_channel corePreserved
  split <;> simp

theorem tstep_band_core (b : String) (p : AgeState × Nat) :
    corePreserved (tstep_band b p).1 p.1 := by
  unfold tstep_band corePreserved
  split <;> simp

theorem tstep_place_core (pl : String) (p : AgeState × Nat) :
    corePreserved (tstep_place pl p).1 p.1 := by
  unfold tstep_place corePreserved
  split <;> simp

theorem add_travel_xp_core (cfg : Config) (xp : Nat) (st : AgeState) :
    corePreserved (add_travel_xp cfg xp st) st := by
  unfold add_travel_xp bump_travel_level corePreserved
  split <;> simp

theorem travel_gain_pair_core (gps : Option String) (ap : ApInfo)
    (essid bssid channel band : String) (oui : Option String) (st : AgeState) :
    corePreserved (travel_gain_pair gps ap essid bssid channel band oui st).1
      st := by
  unfold travel_gain_pair
  exact corePreserved_trans (tstep_place_core _ _)
    (corePreserved_trans (tstep_band_core _ _)
      (corePreserved_trans (tstep_channel_core _ _)
        (corePreserved_trans (tstep_oui_core _ _)
          (corePreserved_trans (tstep_bssid_core _ _)
            (tstep_essid_core _ _)))))

theorem travel_update_core (cfg : Config) (gps : Option String) (ap : ApInfo)
    (essid bssid channel band : String) (oui : Option String) (st : AgeState) :
    corePreserved (travel_update cfg gps ap essid bssid channel band oui st)
      st := by
  unfold travel_update
  split
  · dsimp only
    split
    · exact corePreserved_trans (add_travel_xp_core _ _ _)
        (travel_gain_pair_core _ _ _ _ _ _ _ _)
    · exact travel_gain_pair_core _ _ _ _ _ _ _ _
  · exact corePreserved_refl st

theorem hs_core_fields (cfg : Config) (hour : Nat) (ap : ApInfo)
    (st : AgeState) :
    (hs_core cfg hour ap st).network_points =
      st.network_points + capture_reward cfg st (apEnc ap) +
        (if 2 ≤ hour ∧ hour < 4 ∧ st.night_owl_handshakes + 1 = 10 then (50 : Int)
         else 0) +
        (if setEqBool (insertNew st.enc_types_captured (apEnc ap))
            (cfg.points_map.map Prod.fst) = true then (100 : Int) else 0) ∧
    (hs_core cfg hour ap st).night_owl_handshakes =
      (if 2 ≤ hour ∧ hour < 4 then st.night_owl_handshakes + 1
       else st.night_owl_handshakes) ∧
    (hs_core cfg hour ap st).streak = st.streak + 1 ∧
    (hs_core cfg hour ap st).handshake_count = st.handshake_count + 1 ∧
    (hs_core cfg hour ap st).active_event = (event_after_capture st).1 ∧
    (hs_core cfg hour ap st).event_handshakes_left =
      (event_after_capture st).2.1 ∧
    (hs_core cfg hour ap st).event_multiplier = (event_after_capture st).2.2 ∧
    (hs_core cfg hour ap st).enc_types_captured =
      insertNew st.enc_types_captured (apEnc ap) ∧
    (hs_core cfg hour ap st).last_active_epoch = st.epochs ∧
    (hs_core cfg hour ap st).epochs = st.epochs := by
  unfold hs_core
  by_cases hw : 2 ≤ hour ∧ hour < 4 <;>
    by_cases h10 : st.night_owl_handshakes + 1 = 10 <;>
      by_cases hck : setEqBool (insertNew st.enc_types_captured (apEnc ap))
          (cfg.points_map.map Prod.fst) = true <;>
        simp [hw, h10, hck]

theorem on_handshake_fields (cfg : Config) (hour : Nat) (gps : Option String)
    (n : Nat) (ap : ApInfo) (st : AgeState) (hn : ¬ n < 3) :
    (on_handshake cfg hour gps n (.dict ap) st).network_points =
      st.network_points + capture_reward cfg st (apEnc ap) +
        (if 2 ≤ hour ∧ hour < 4 ∧ st.night_owl_handshakes + 1 = 10 then (50 : Int)
         else 0) +
        (if setEqBool (insertNew st.enc_types_captured (apEnc ap))
            (cfg.points_map.map Prod.fst) = true then (100 : Int) else 0) ∧
    (on_handshake cfg hour gps n (.dict ap) st).night_owl_handshakes =
      (if 2 ≤ hour ∧ hour < 4 then st.night_owl_handshakes + 1
       else st.night_owl_handshakes) ∧
    (on_handshake cfg hour gps n (.dict ap) st).streak = st.streak + 1 ∧
    (on_handshake cfg hour gps n (.dict ap) st).handshake_count =
      st.handshake_count + 1 ∧
    (on_handshake cfg hour gps n (.dict ap) st).active_event =
      (event_after_capture st).1 ∧
    (on_handshake cfg hour gps n (.dict ap) st).event_handshakes_left =
      (event_after_capture st).2.1 ∧
    (on_handshake cfg hour gps n (.dict ap) st).event_multiplier =
      (event_after_capture st).2.2 ∧
    (on_handshake cfg hour gps n (.dict ap) st).enc_types_captured =
      insertNew st.enc_types_captured (apEnc ap) ∧
    (on_handshake cfg hour gps n (.dict ap) st).last_active_epoch = st.epochs ∧
    (on_handshake cfg hour gps n (.dict ap) st).epochs = st.epochs := by
  obtain ⟨ce, ct, cn, ch, cl, cs, ca, cv, cm, co, cc⟩ :=
    travel_update_core cfg gps ap (apEssid ap) (apBssid ap) (apChannel ap)
      (channel_to_band (apChannel ap)) (ouiOf (apBssid ap))
      (hs_core cfg hour ap st)
  obtain ⟨f1, f2, f3, f4, f5, f6, f7, f8, f9, f10⟩ :=
    hs_core_fields cfg hour ap st
  have hred : on_handshake cfg hour gps n (.dict ap) st =
      travel_update cfg gps ap (apEssid ap) (apBssid ap) (apChannel ap)
        (channel_to_band (apChannel ap)) (ouiOf (apBssid ap))
        (hs_core cfg hour ap st) := by
    unfold on_handshake
    rw [if_neg hn]
  rw [hred]
  exact ⟨cn.trans f1, co.trans f2, cs.trans f3, ch.trans f4, ca.trans f5,
    cv.trans f6, cm.trans f7, cc.trans f8, cl.trans f9, ce.trans f10⟩

/-! ### Helper lemmas about the descending sort and dict lookup used by the
title resolver -/

theorem mem_insertDesc {x a : Nat} {l : List Nat} :
    a ∈ insertDesc x l ↔ a = x ∨ a ∈ l := by
  induction l with
  | nil => simp [insertDesc]
  | cons y ys ih =>
    by_cases h : y ≤ x
    · simp [insertDesc, h, List.mem_cons]
    · simp only [insertDesc, if_neg h, List.mem_cons, ih]
      tauto

theorem sorted_insertDesc {x : Nat} {l : List Nat}
    (h : l.Sorted (fun a b => b ≤ a)) :
    (insertDesc x l).Sorted (fun a b => b ≤ a) := by
  induction l with
  | nil => simp [insertDesc]
  | cons y ys ih =>
    rw [List.sorted_cons] at h
    obtain ⟨hy, hys⟩ := h
    by_cases hx : y ≤ x
    · simp only [insertDesc, if_pos hx]
      rw [List.sorted_cons]
      refine ⟨?_, ?_⟩
      · intro b hb
        rcases List.mem_cons.mp hb with rfl | hb
        · exact hx
        · exact le_trans (hy b hb) hx
      · rw [List.sorted_cons]
        exact ⟨hy, hys⟩
    · simp only [insertDesc, if_neg hx]
      rw [List.sorted_cons]
      refine ⟨?_, ih hys⟩
      intro b hb
      rcases mem_insertDesc.mp hb with rfl | hb
      · exact le_of_not_le hx
      · exact hy b hb

theorem sorted_sortDesc (l : List Nat) :
    (sortDesc l).Sorted (fun a b => b ≤ a) := by
  induction l with
  | nil => simp [sortDesc]
  | cons x xs ih => exact sorted_insertDesc ih

theorem mem_sortDesc {a : Nat} {l : List Nat} : a ∈ sortDesc l ↔ a ∈ l := by
  induction l with
  | nil => simp [sortDesc]
  | cons x xs ih =>
    show a ∈ insertDesc x (sortDesc xs) ↔ _
    rw [mem_insertDesc, ih, List.mem_cons]

theorem find?_max {c t : Nat} {l : List Nat}
    (hs : l.Sorted (fun a b => b ≤ a))
    (hf : l.find? (fun t => decide (t ≤ c)) = some t) :
    ∀ x ∈ l, x ≤ c → x ≤ t := by
  induction l with
  | nil => simp at hf
  | cons y ys ih =>
    rw [List.sorted_cons] at hs
    obtain ⟨hy, hys⟩ := hs
    by_cases hyc : y ≤ c
    · rw [List.find?_cons_of_pos _ (by simpa using hyc)] at hf
      have hyt : y = t := by simpa using hf
      subst hyt
      intro x hx _
      rcases List.mem_cons.mp hx with rfl | hx
      · exact le_refl x
      · exact hy x hx
    · rw [List.find?_cons_of_neg _ (by simpa using hyc)] at hf
      intro x hx hxc
      rcases List.mem_cons.mp hx with rfl | hx
      · exact absurd hxc hyc
      · exact ih hys hf x hx hxc

theorem lookupKey_mem {l : List (Nat × String)} {k : Nat} {v : String}
    (hnd : (l.map Prod.fst).Nodup) (h : (k, v) ∈ l) :
    lookupKey l k = some v := by
  induction l with
  | nil => cases h
  | cons p ps ih =>
    obtain ⟨k', v'⟩ := p
    rw [List.map_cons, List.nodup_cons] at hnd
    obtain ⟨hk', hnd⟩ := hnd
    rcases List.mem_cons.mp h with heq | hmem
    · cases heq
      simp [lookupKey]
    · have hne : k' ≠ k := by
        intro he
        apply hk'
        rw [he]
        exact List.mem_map.mpr ⟨(k, v), hmem, rfl⟩
      simp [lookupKey, hne, ih hnd hmem]

/-- Specification of the title resolver on a counter `c`: if every threshold
key exceeds `c` the floor label is returned, and if some key is at most `c`
the result is the label of the largest such key. -/
def resolveSpec (c : Nat) (titles : List (Nat × String)) (floorLabel : String) :
    Prop :=
  ((∀ kv ∈ titles, c < kv.1) → resolveTitle c titles floorLabel = floorLabel) ∧
  (∀ kv ∈ titles, kv.1 ≤ c →
    ∃ km vm, (km, vm) ∈ titles ∧ km ≤ c ∧
      (∀ kv2 ∈ titles, kv2.1 ≤ c → kv2.1 ≤ km) ∧
      resolveTitle c titles floorLabel = vm)

/-- C9: the title resolver shared by `get_age_title`, `get_strength_title` and
`get_travel_title` returns the label of the largest threshold key not
exceeding the counter, and the floor label when the counter is below every
key. -/
theorem resolve_title_spec (c : Nat) (titles : List (Nat × String))
    (floorLabel : String) (hnd : (titles.map Prod.fst).Nodup) :
    resolveSpec c titles floorLabel := by
  constructor
  · intro hall
    unfold resolveTitle
    have hnone :
        (sortDesc (titles.map Prod.fst)).find? (fun t => decide (t ≤ c)) =
          none := by
      rw [List.find?_eq_none]
      intro x hx
      rw [mem_sortDesc] at hx
      obtain ⟨⟨k, v⟩, hkv, rfl⟩ := List.mem_map.mp hx
      simp only [decide_eq_true_eq]
      exact not_le.mpr (hall (k, v) hkv)
    rw [hnone]
  · intro kv hkv hle
    unfold resolveTitle
    cases hfind :
        (sortDesc (titles.map Prod.fst)).find? (fun t => decide (t ≤ c)) with
    | none =>
      exfalso
      rw [List.find?_eq_none] at hfind
      have hmem : kv.1 ∈ sortDesc (titles.map Prod.fst) :=
        mem_sortDesc.mpr (List.mem_map_of_mem Prod.fst hkv)
      have := hfind _ hmem
      simp only [decide_eq_true_eq] at this
      exact this hle
    | some t =>
      have ht_mem : t ∈ titles.map Prod.fst :=
        mem_sortDesc.mp (List.mem_of_find?_eq_some hfind)
      have ht_le : t ≤ c := by
        have := List.find?_some hfind
        simpa using this
      have hmax : ∀ x ∈ titles.map Prod.fst, x ≤ c → x ≤ t := by
        intro x hx hxc
        exact find?_max (sorted_sortDesc _) hfind x (mem_sortDesc.mpr hx) hxc
      obtain ⟨⟨km, vm⟩, hkm_mem, hkm_eq⟩ := List.mem_map.mp ht_mem
      simp only at hkm_eq
      subst hkm_eq
      refine ⟨km, vm, hkm_mem, ht_le, ?_, ?_⟩
      · intro kv2 h2 h2le
        exact hmax kv2.1 (List.mem_map_of_mem _ h2) h2le
      · show (lookupKey titles km).getD floorLabel = vm
        rw [lookupKey_mem hnd hkm_mem]
        rfl

/-- C9 witness: the resolver spec holds at a concrete mapping, with the
no-duplicate-keys hypothesis discharged by computation. -/
theorem resolve_title_spec_witness :
    resolveSpec 150 [(100, "A"), (200, "B")] "F" :=
  resolve_title_spec 150 [(100, "A"), (200, "B")] "F" (by decide)

/-! ### C2: decay -/

/-- Specification of `apply_decay`: a no-op below the inactivity interval;
otherwise the points drop by `floor((inactive / interval) * amount)` clamped
at zero, the streak is reset exactly when the pre-clamp loss is positive, and
in that case the last-active epoch re-arms to the current epoch. -/
def decaySpec (cfg : Config) (st : AgeState) : Prop :=
  (st.epochs - st.last_active_epoch < cfg.decay_interval →
    apply_decay cfg st = st) ∧
  (cfg.decay_interval ≤ st.epochs - st.last_active_epoch →
    (apply_decay cfg st).network_points =
      max 0 (st.network_points -
        (((st.epochs - st.last_active_epoch) * cfg.decay_amount /
          cfg.decay_interval : Nat) : Int)) ∧
    (0 < (st.epochs - st.last_active_epoch) * cfg.decay_amount /
        cfg.decay_interval →
      (apply_decay cfg st).streak = 0 ∧
      (apply_decay cfg st).last_active_epoch = st.epochs) ∧
    ((st.epochs - st.last_active_epoch) * cfg.decay_amount /
        cfg.decay_interval = 0 →
      (apply_decay cfg st).streak = st.streak ∧
      (apply_decay cfg st).last_active_epoch = st.last_active_epoch))

/-- The worked decay example of the claim: interval 50, amount 10, last
active 0, current epoch 100, points 5 — pre-clamp loss 20, points clamp to 0,
streak resets. -/
def decayExample : Prop :=
  ((100 - 0) * 10 / 50 : Nat) = 20 ∧
  (apply_decay defaultConfig
    { initState with epochs := 100, network_points := 5, streak := 3 }
    ).network_points = 0 ∧
  (apply_decay defaultConfig
    { initState with epochs := 100, network_points := 5, streak := 3 }
    ).streak = 0

/-- C2: `apply_decay` is a no-op below the inactivity interval and otherwise
removes the floored proportional loss clamped at zero, resetting the streak
and re-arming the last-active epoch exactly when the pre-clamp loss is
positive; the worked 50/10/0/100/5 example gives loss 20, points 0, streak
reset. -/
theorem apply_decay_spec (cfg : Config) (st : AgeState) :
    decaySpec cfg st ∧ decayExample := by
  constructor
  · constructor
    · intro hlt
      unfold apply_decay
      rw [if_neg (by omega)]
    · intro hge
      unfold apply_decay
      rw [if_pos hge]
      by_cases hl :
          0 < (st.epochs - st.last_active_epoch) * cfg.decay_amount /
            cfg.decay_interval
      · rw [if_pos hl]
        refine ⟨rfl, fun _ => ⟨rfl, rfl⟩, fun h0 => absurd hl (by omega)⟩
      · rw [if_neg hl]
        exact ⟨rfl, fun h => absurd h hl, fun _ => ⟨rfl, rfl⟩⟩
  · refine ⟨by decide, by decide, by decide⟩

/-- C2 witness: the decay spec instantiated at the default configuration and
the fresh state. -/
theorem apply_decay_spec_witness :
    decaySpec defaultConfig initState ∧ decayExample :=
  apply_decay_spec defaultConfig initState

/-! ### C10: abrev_number -/

/-- C10: `abrev_number` right-strips the characters `.` and `0`, so it maps 0
to the empty string and 10 to "1"; hence some nonnegative input is rendered
as a string that does not denote it. -/
theorem abrev_number_drops_digits :
    abrev_number 0 = "" ∧ abrev_number 10 = "1" ∧
    ∃ n : Nat, abrev_number n ≠ toString n :=
  ⟨by decide, by decide, ⟨10, by decide⟩⟩

/-! ### C3: streak bonus -/

set_option maxRecDepth 8000

/-- A wpa2 capture payload used for the concrete streak run. -/
def apWpa2Rec : ApInfo :=
  ⟨some "wpa2", some "homenet", some "aa:bb:cc:dd:ee:ff", some "6"⟩

/-- One daytime wpa2 capture under the default configuration. -/
def c3Capture (st : AgeState) : AgeState :=
  on_handshake defaultConfig 12 none 3 (.dict apWpa2Rec) st

/-- The concrete sequence of the claim: from a fresh state, four wpa2 captures
of base reward 5 add 5 points each (+20 total), and the fifth adds
`int(5 * 1.2) = 6`. -/
def streakExample : Prop :=
  (c3Capture^[1] initState).network_points = 5 ∧
  (c3Capture^[2] initState).network_points = 10 ∧
  (c3Capture^[3] initState).network_points = 15 ∧
  (c3Capture^[4] initState).network_points = 20 ∧
  (c3Capture^[5] initState).network_points = 26

/-- C3: with no active bonus event, the capture reward is the base reward for
post-increment streaks below 5 and `int(base * 1.2)` once the post-increment
streak reaches 5; concretely, four captures of base 5 add 5 each and the
fifth adds 6. -/
theorem streak_bonus_spec (cfg : Config) (st : AgeState) (enc : String)
    (he : event_active st = false) :
    capture_reward cfg st enc =
      (if 5 ≤ st.streak + 1 then
        pyMul ((lookupStr cfg.points_map enc).getD 1) pyStreakBonus
      else (lookupStr cfg.points_map enc).getD 1) ∧
    streakExample := by
  constructor
  · simp [capture_reward, pre_event_reward, he]
  · exact ⟨by decide, by decide, by decide, by decide, by decide⟩

/-- C3 witness: the streak-bonus spec at the default configuration and fresh
state, whose event-inactive hypothesis is discharged by computation. -/
theorem streak_bonus_spec_witness :
    (capture_reward defaultConfig initState "wpa2" =
      if 5 ≤ initState.streak + 1 then
        pyMul ((lookupStr defaultConfig.points_map "wpa2").getD 1) pyStreakBonus
      else (lookupStr defaultConfig.points_map "wpa2").getD 1) ∧
    streakExample :=
  streak_bonus_spec defaultConfig initState "wpa2" (by decide)

/-! ### C4: encryption-kind completeness bonus -/

/-- A state that has already captured wpa3, wpa2 and wep. -/
def c4State : AgeState :=
  { initState with enc_types_captured := ["wpa3", "wpa2", "wep"] }

/-- A wpa capture payload (the last missing kind of the default map). -/
def apWpaRec : ApInfo := ⟨some "wpa", some "net", none, none⟩

/-- One daytime wpa capture under the default configuration. -/
def c4Capture (st : AgeState) : AgeState :=
  on_handshake defaultConfig 12 none 3 (.dict apWpaRec) st

/-- C4 counterexample: the capture that completes the encryption-kind set
adds its reward 2 plus the +100 bonus, and the *next* capture adds +100
again (102 = 2 + 100 both times), so the bonus is not one-time. -/
theorem crypto_king_retriggers :
    (c4Capture c4State).network_points = c4State.network_points + 102 ∧
    (c4Capture (c4Capture c4State)).network_points =
      (c4Capture c4State).network_points + 102 :=
  ⟨by decide, by decide⟩

/-- Per-capture characterization of the completeness bonus around one
daytime capture: the +100 is added when the captured-kind set after inserting
this capture's encryption equals the configured set of known kinds, and is
not added when that post-insert set differs from the configured set (be it
still short of it, or grown into a strict superset by an unrecognized
kind). -/
def cryptoKingSpecAt (cfg : Config) (st : AgeState) (hour : Nat)
    (gps : Option String) (n : Nat) (ap : ApInfo) : Prop :=
  (setEqBool (insertNew st.enc_types_captured (apEnc ap))
      (cfg.points_map.map Prod.fst) = true →
    (on_handshake cfg hour gps n (.dict ap) st).network_points =
      st.network_points + capture_reward cfg st (apEnc ap) + 100) ∧
  (setEqBool (insertNew st.enc_types_captured (apEnc ap))
      (cfg.points_map.map Prod.fst) = false →
    (on_handshake cfg hour gps n (.dict ap) st).network_points =
      st.network_points + capture_reward cfg st (apEnc ap))

/-- C4 amended: the +100 completeness bonus is added at exactly those captures
whose post-insert captured-kind set equals the configured set of known kinds —
so it fires at the first completeness capture and again at each subsequent
capture of an already-known kind (it is not one-time), while a capture whose
post-insert set differs from the configured set (still incomplete, or pushed
past it by an unrecognized encryption label) adds no bonus. -/
theorem crypto_king_spec (cfg : Config) (st : AgeState) (hour : Nat)
    (gps : Option String) (n : Nat) (ap : ApInfo) (hn : ¬ n < 3)
    (hw : ¬ (2 ≤ hour ∧ hour < 4)) :
    cryptoKingSpecAt cfg st hour gps n ap := by
  have h := (on_handshake_fields cfg hour gps n ap st hn).1
  have hno : ¬ (2 ≤ hour ∧ hour < 4 ∧ st.night_owl_handshakes + 1 = 10) := by
    tauto
  constructor
  · intro hc
    rw [h, if_neg hno, if_pos hc]
    ring
  · intro hc
    rw [h, if_neg hno, if_neg (by simp [hc])]
    ring

/-- C4 witness: the per-capture completeness-bonus characterization at the
concrete completing capture, hypotheses discharged by computation. -/
theorem crypto_king_spec_witness :
    cryptoKingSpecAt defaultConfig c4State 12 none 3 apWpaRec :=
  crypto_king_spec defaultConfig c4State 12 none 3 apWpaRec (by decide)
    (by decide)

/-! ### C5: night-owl bonus -/

/-- Specification of the night-owl achievement around one capture: outside the
02:00-04:00 window the counter and the points are unaffected by it; inside
the window the counter increments, and the +50 bonus is added exactly when
the counter moves from 9 to 10 (so neither before reaching 10 nor at any
counter value beyond 10). -/
def nightOwlSpec (cfg : Config) (st : AgeState) (hour : Nat)
    (gps : Option String) (n : Nat) (ap : ApInfo) : Prop :=
  (¬ (2 ≤ hour ∧ hour < 4) →
    (on_handshake cfg hour gps n (.dict ap) st).night_owl_handshakes =
      st.night_owl_handshakes ∧
    (on_handshake cfg hour gps n (.dict ap) st).network_points =
      st.network_points + capture_reward cfg st (apEnc ap)) ∧
  ((2 ≤ hour ∧ hour < 4) ∧ st.night_owl_handshakes = 9 →
    (on_handshake cfg hour gps n (.dict ap) st).night_owl_handshakes = 10 ∧
    (on_handshake cfg hour gps n (.dict ap) st).network_points =
      st.network_points + capture_reward cfg st (apEnc ap) + 50) ∧
  ((2 ≤ hour ∧ hour < 4) ∧ st.night_owl_handshakes ≠ 9 →
    (on_handshake cfg hour gps n (.dict ap) st).night_owl_handshakes =
      st.night_owl_handshakes + 1 ∧
    (on_handshake cfg hour gps n (.dict ap) st).network_points =
      st.network_points + capture_reward cfg st (apEnc ap))

/-- C5: for captures that do not complete the encryption-kind set, the +50
night-owl bonus is added exactly at the capture moving the night-owl counter
from 9 to 10; captures in the window before the counter reaches 10, or after
it passed 10, add no bonus, and captures outside the window leave the counter
alone. -/
theorem night_owl_spec (cfg : Config) (st : AgeState) (hour : Nat)
    (gps : Option String) (n : Nat) (ap : ApInfo) (hn : ¬ n < 3)
    (hc : setEqBool (insertNew st.enc_types_captured (apEnc ap))
      (cfg.points_map.map Prod.fst) = false) :
    nightOwlSpec cfg st hour gps n ap := by
  have h1 := (on_handshake_fields cfg hour gps n ap st hn).1
  have h2 := (on_handshake_fields cfg hour gps n ap st hn).2.1
  have hcneg : ¬ setEqBool (insertNew st.enc_types_captured (apEnc ap))
      (cfg.points_map.map Prod.fst) = true := by simp [hc]
  refine ⟨?_, ?_, ?_⟩
  · intro hwn
    have hno : ¬ (2 ≤ hour ∧ hour < 4 ∧ st.night_owl_handshakes + 1 = 10) := by
      tauto
    refine ⟨?_, ?_⟩
    · rw [h2, if_neg hwn]
    · rw [h1, if_neg hno, if_neg hcneg]
      ring
  · rintro ⟨hw, h9⟩
    refine ⟨?_, ?_⟩
    · rw [h2, if_pos hw, h9]
    · rw [h1, if_pos ⟨hw.1, hw.2, by rw [h9]⟩, if_neg hcneg]
      ring
  · rintro ⟨hw, hne9⟩
    have hno : ¬ (2 ≤ hour ∧ hour < 4 ∧ st.night_owl_handshakes + 1 = 10) := by
      rintro ⟨-, -, h⟩
      exact hne9 (by omega)
    refine ⟨?_, ?_⟩
    · rw [h2, if_pos hw]
    · rw [h1, if_neg hno, if_neg hcneg]
      ring

/-- A state whose night-owl counter stands at 9. -/
def c5State : AgeState := { initState with night_owl_handshakes := 9 }

/-- A wep capture payload for the night-owl witness. -/
def apWepRec : ApInfo := ⟨some "wep", some "n", none, none⟩

/-- C5 witness: the night-owl spec at hour 3 on a counter-9 state, hypotheses
discharged by computation. -/
theorem night_owl_spec_witness :
    nightOwlSpec defaultConfig c5State 3 none 3 apWepRec :=
  night_owl_spec defaultConfig c5State 3 none 3 apWepRec (by decide)
    (by decide)

/-! ### C6: malformed capture payloads -/

/-- An AP dict carrying none of the expected fields. -/
def apEmptyRec : ApInfo := ⟨none, none, none, none⟩

/-- C6 counterexample: an AP record that *is* a dict but misses every expected
field is not ignored — the capture is processed with the `.get` defaults and
mutates the state (points +1 from the unknown-encryption default, handshake
count and streak +1). -/
theorem malformed_dict_mutates :
    (on_handshake defaultConfig 12 none 3 (.dict apEmptyRec) initState
      ).network_points = initState.network_points + 1 ∧
    (on_handshake defaultConfig 12 none 3 (.dict apEmptyRec) initState
      ).handshake_count = initState.handshake_count + 1 ∧
    (on_handshake defaultConfig 12 none 3 (.dict apEmptyRec) initState
      ).streak = initState.streak + 1 :=
  ⟨by decide, by decide, by decide⟩

/-- Specification of the malformed-payload guards: fewer than three handler
arguments or a non-dict AP record leave the state untouched, while any dict
AP record — with or without its expected fields — is processed (the
handshake counter increments). -/
def malformedGuardSpec (cfg : Config) (hour : Nat) (gps : Option String)
    (n : Nat) (arg2 : ApArg) (st : AgeState) : Prop :=
  (n < 3 → on_handshake cfg hour gps n arg2 st = st) ∧
  (arg2 = ApArg.nondict → on_handshake cfg hour gps n arg2 st = st) ∧
  (¬ n < 3 → ∀ ap : ApInfo,
    (on_handshake cfg hour gps n (.dict ap) st).handshake_count =
      st.handshake_count + 1)

/-- C6 amended: `on_handshake` ignores the event, mutating nothing, exactly
when fewer than three arguments arrive or the AP record is not a dict; a dict
missing its expected fields is still processed, with the `.get` defaults. -/
theorem malformed_guard_spec (cfg : Config) (hour : Nat) (gps : Option String)
    (n : Nat) (arg2 : ApArg) (st : AgeState) :
    malformedGuardSpec cfg hour gps n arg2 st := by
  refine ⟨?_, ?_, ?_⟩
  · intro h
    unfold on_handshake
    rw [if_pos h]
  · intro h
    subst h
    unfold on_handshake
    split
    · rfl
    · rfl
  · intro hn ap
    exact (on_handshake_fields cfg hour gps n ap st hn).2.2.2.1

/-- C6 witness: the guard spec at a concrete short-argument, non-dict call. -/
theorem malformed_guard_spec_witness :
    malformedGuardSpec defaultConfig 12 none 2 ApArg.nondict initState :=
  malformed_guard_spec defaultConfig 12 none 2 ApArg.nondict initState

/-! ### C7: the points counter never goes negative -/

theorem lookupStr_mem {l : List (String × Int)} {k : String} {v : Int}
    (h : lookupStr l k = some v) : (k, v) ∈ l := by
  induction l with
  | nil => simp [lookupStr] at h
  | cons p ps ih =>
    obtain ⟨k', v'⟩ := p
    by_cases hk : k' = k
    · subst hk
      simp [lookupStr] at h
      subst h
      exact List.mem_cons_self _ _
    · simp [lookupStr, hk] at h
      exact List.mem_cons_of_mem _ (ih h)

theorem pyMul_nonneg {p : Int} {f : PyFloat} (hp : 0 ≤ p) (hn : 0 ≤ f.num)
    (hd : 0 ≤ f.den) : 0 ≤ pyMul p f :=
  Int.tdiv_nonneg (mul_nonneg hp hn) hd

theorem capture_reward_nonneg (cfg : Config) (st : AgeState) (enc : String)
    (hnum : 0 ≤ st.event_multiplier.num) (hden : 0 ≤ st.event_multiplier.den)
    (hmap : ∀ kv ∈ cfg.points_map, 0 ≤ kv.2) :
    0 ≤ capture_reward cfg st enc := by
  have hbase : 0 ≤ (lookupStr cfg.points_map enc).getD 1 := by
    cases hl : lookupStr cfg.points_map enc with
    | none => simp
    | some v => simpa using hmap (enc, v) (lookupStr_mem hl)
  have hpre : 0 ≤ pre_event_reward cfg st enc := by
    unfold pre_event_reward
    split
    · exact pyMul_nonneg hbase (by decide) (by decide)
    · exact hbase
  unfold capture_reward
  split
  · exact pyMul_nonneg hpre hnum hden
  · exact hpre

theorem apply_decay_points_nonneg (cfg : Config) (st : AgeState)
    (hp : 0 ≤ st.network_points) :
    0 ≤ (apply_decay cfg st).network_points := by
  simp only [apply_decay]
  split
  · split
    · exact le_max_left 0 _
    · exact le_max_left 0 _
  · exact hp

theorem check_achievements_points (cfg : Config) (st : AgeState) :
    (check_achievements cfg st).network_points = st.network_points := by
  simp only [check_achievements]
  split
  · split
    · rfl
    · rfl
  · split
    · rfl
    · rfl

theorem handle_random_event_points (outcome : Option BonusEvent)
    (st : AgeState) :
    (handle_random_event outcome st).network_points = st.network_points := by
  cases outcome <;> rfl

/-- C7: the points counter stays nonnegative across every mutating operation —
an epoch tick (with its decay, clamped at zero) and a capture (with every
reward, streak/event multiplier and bonus path), for any configuration whose
points map carries nonnegative rewards and any nonnegative stored event
multiplier. -/
theorem points_nonneg_invariant (cfg : Config) (st : AgeState)
    (outcome : Option BonusEvent) (hour : Nat) (gps : Option String) (n : Nat)
    (arg2 : ApArg) (hp : 0 ≤ st.network_points)
    (hnum : 0 ≤ st.event_multiplier.num) (hden : 0 ≤ st.event_multiplier.den)
    (hmap : ∀ kv ∈ cfg.points_map, 0 ≤ kv.2) :
    0 ≤ (on_epoch cfg outcome st).network_points ∧
    0 ≤ (on_handshake cfg hour gps n arg2 st).network_points := by
  constructor
  · unfold on_epoch
    have hstep : ∀ s : AgeState, 0 ≤ s.network_points →
        0 ≤ (if s.epochs % 100 = 0 then handle_random_event outcome s
             else s).network_points := by
      intro s hs
      split
      · rw [handle_random_event_points]
        exact hs
      · exact hs
    apply hstep
    rw [check_achievements_points]
    apply apply_decay_points_nonneg
    split
    · exact hp
    · exact hp
  · by_cases hn : n < 3
    · unfold on_handshake
      rw [if_pos hn]
      exact hp
    · cases arg2 with
      | nondict =>
        unfold on_handshake
        rw [if_neg hn]
        exact hp
      | dict ap =>
        rw [(on_handshake_fields cfg hour gps n ap st hn).1]
        have hr := capture_reward_nonneg cfg st (apEnc ap) hnum hden hmap
        have h50 : (0 : Int) ≤
            (if 2 ≤ hour ∧ hour < 4 ∧ st.night_owl_handshakes + 1 = 10
             then (50 : Int) else 0) := by
          split
          · norm_num
          · exact le_refl 0
        have h100 : (0 : Int) ≤
            (if setEqBool (insertNew st.enc_types_captured (apEnc ap))
                (cfg.points_map.map Prod.fst) = true then (100 : Int)
             else 0) := by
          split
          · norm_num
          · exact le_refl 0
        have := add_nonneg (add_nonneg (add_nonneg hp hr) h50) h100
        exact this

/-- C7 witness: the invariant at the default configuration and fresh state,
all hypotheses discharged by computation. -/
theorem points_nonneg_invariant_witness :
    0 ≤ (on_epoch defaultConfig none initState).network_points ∧
    0 ≤ (on_handshake defaultConfig 12 none 3
      (.dict ⟨some "wpa2", some "net", none, none⟩) initState
      ).network_points :=
  points_nonneg_invariant defaultConfig initState none 12 none 3
    (.dict ⟨some "wpa2", some "net", none, none⟩) (by decide) (by decide)
    (by decide) (by decide)

/-! ### C8: a bonus event with one remaining use -/

/-- Specification of a single-use bonus event around one capture: after the
capture the active event is cleared, the remaining-use counter is zero and
the multiplier is back to 1.0; the capture itself was multiplied by the
stored multiplier, and any further capture reward is the plain
streak-adjusted base. -/
def singleUseSpec (cfg : Config) (st : AgeState) (hour : Nat)
    (gps : Option String) (n : Nat) (ap : ApInfo) : Prop :=
  (on_handshake cfg hour gps n (.dict ap) st).active_event = none ∧
  (on_handshake cfg hour gps n (.dict ap) st).event_handshakes_left = 0 ∧
  (on_handshake cfg hour gps n (.dict ap) st).event_multiplier = pyOne ∧
  capture_reward cfg st (apEnc ap) =
    pyMul (pre_event_reward cfg st (apEnc ap)) st.event_multiplier ∧
  (∀ enc2 : String,
    capture_reward cfg (on_handshake cfg hour gps n (.dict ap) st) enc2 =
      pre_event_reward cfg (on_handshake cfg hour gps n (.dict ap) st) enc2)

/-- C8: a bonus event with `remainingUses = 1` multiplies exactly one
subsequent capture reward, after which the event is cleared, the multiplier
reverts to 1.0 and the next capture reward is unmultiplied. -/
theorem bonus_event_single_use (cfg : Config) (st : AgeState) (hour : Nat)
    (gps : Option String) (n : Nat) (ap : ApInfo) (e : BonusEvent)
    (hn : ¬ n < 3) (hev : st.active_event = some e)
    (h1 : st.event_handshakes_left = 1) :
    singleUseSpec cfg st hour gps n ap := by
  have hact : event_active st = true := by
    unfold event_active
    rw [hev, h1]
    simp
  have hafter : event_after_capture st = (none, 0, pyOne) := by
    unfold event_after_capture
    rw [hact, h1]
    simp
  obtain ⟨f1, f2, f3, f4, f5, f6, f7, f8, f9, f10⟩ :=
    on_handshake_fields cfg hour gps n ap st hn
  refine ⟨?_, ?_, ?_, ?_, ?_⟩
  · rw [f5, hafter]
  · rw [f6, hafter]
  · rw [f7, hafter]
  · simp [capture_reward, hact]
  · intro enc2
    have hact2 : event_active (on_handshake cfg hour gps n (.dict ap) st) =
        false := by
      unfold event_active
      rw [f5, hafter]
      simp
    simp [capture_reward, hact2]

/-- A state carrying the Signal Noise event with one remaining use. -/
def c8State : AgeState :=
  { initState with
    active_event := some signalNoise
    event_handshakes_left := 1
    event_multiplier := pyHalf }

/-- A wpa3 capture payload (uppercase, exercising the lowercasing). -/
def apWpa3Rec : ApInfo := ⟨some "WPA3", some "n", none, none⟩

/-- C8 witness: the single-use spec on the Signal Noise event, hypotheses
discharged by computation. -/
theorem bonus_event_single_use_witness :
    singleUseSpec defaultConfig c8State 12 none 3 apWpa3Rec :=
  bonus_event_single_use defaultConfig c8State 12 none 3 apWpa3Rec
    signalNoise (by decide) (by decide) (by decide)

/-! ### C1: persistence round-trip -/

/-- The JSON keys `load_data` reads. -/
def knownKeys : List String :=
  ["epochs", "train_epochs", "points", "handshakes", "last_active",
   "prev_age", "prev_strength", "streak", "night_owl_handshakes",
   "enc_types_captured", "personality_aggro", "personality_stealth",
   "personality_scholar", "travel_xp", "travel_level", "unique_essids",
   "unique_bssids", "unique_ouis", "unique_channels", "unique_bands",
   "place_hashes", "last_place_hash"]

theorem jget_extras (extras o : List (String × JVal)) (k : String)
    (hk : k ∈ knownKeys) (hext : ∀ p ∈ extras, p.1 ∉ knownKeys) :
    jget (extras ++ o) k = jget o k := by
  induction extras with
  | nil => rfl
  | cons p ps ih =>
    obtain ⟨k', v⟩ := p
    have hk' : k' ∉ knownKeys := hext (k', v) (List.mem_cons_self _ _)
    have hne : k' ≠ k := fun he => hk' (he ▸ hk)
    show jget ((k', v) :: (ps ++ o)) k = jget o k
    simp only [jget]
    rw [if_neg hne]
    exact ih (fun q hq => hext q (List.mem_cons_of_mem _ hq))

theorem load_data_extras (cfg : Config) (extras o : List (String × JVal))
    (b : AgeState) (hext : ∀ p ∈ extras, p.1 ∉ knownKeys) :
    load_data cfg (extras ++ o) b = load_data cfg o b := by
  have eN : ∀ k d, k ∈ knownKeys →
      getNat (extras ++ o) k d = getNat o k d := by
    intro k d hk
    unfold getNat
    rw [jget_extras extras o k hk hext]
  have eI : ∀ k d, k ∈ knownKeys →
      getInt (extras ++ o) k d = getInt o k d := by
    intro k d hk
    unfold getInt
    rw [jget_extras extras o k hk hext]
  have eS : ∀ k d, k ∈ knownKeys →
      getStr (extras ++ o) k d = getStr o k d := by
    intro k d hk
    unfold getStr
    rw [jget_extras extras o k hk hext]
  have eA : ∀ k d, k ∈ knownKeys →
      getArr (extras ++ o) k d = getArr o k d := by
    intro k d hk
    unfold getArr
    rw [jget_extras extras o k hk hext]
  have eO : ∀ k, k ∈ knownKeys →
      getOptStr (extras ++ o) k = getOptStr o k := by
    intro k hk
    unfold getOptStr
    rw [jget_extras extras o k hk hext]
  unfold load_data
  rw [eN "epochs" 0 (by decide), eN "train_epochs" 0 (by decide),
    eI "points" 0 (by decide), eN "handshakes" 0 (by decide),
    eN "last_active" 0 (by decide), eN "streak" 0 (by decide),
    eN "night_owl_handshakes" 0 (by decide),
    eA "enc_types_captured" [] (by decide),
    eN "personality_aggro" 0 (by decide),
    eN "personality_stealth" 0 (by decide),
    eN "personality_scholar" 0 (by decide), eN "travel_xp" 0 (by decide),
    eN "travel_level" 0 (by decide), eA "unique_essids" [] (by decide),
    eA "unique_bssids" [] (by decide), eA "unique_ouis" [] (by decide),
    eA "unique_channels" [] (by decide), eA "unique_bands" [] (by decide),
    eA "place_hashes" [] (by decide), eO "last_place_hash" (by decide),
    eS "prev_age" _ (by decide), eS "prev_strength" _ (by decide)]

/-- Round-trip specification: after saving a state and loading the file back
(with arbitrary unknown extra keys present), every persisted field is
reproduced, except that the previous-title fields come back as the titles
resolved from the saved counters, while the active-event triple is not
persisted at all and keeps the values of the state the load ran on. -/
def roundTripSpec (cfg : Config) (st b : AgeState)
    (extras : List (String × JVal)) : Prop :=
  (load_data cfg (extras ++ save_data cfg st) b).epochs = st.epochs ∧
  (load_data cfg (extras ++ save_data cfg st) b).train_epochs =
    st.train_epochs ∧
  (load_data cfg (extras ++ save_data cfg st) b).network_points =
    st.network_points ∧
  (load_data cfg (extras ++ save_data cfg st) b).handshake_count =
    st.handshake_count ∧
  (load_data cfg (extras ++ save_data cfg st) b).last_active_epoch =
    st.last_active_epoch ∧
  (load_data cfg (extras ++ save_data cfg st) b).streak = st.streak ∧
  (load_data cfg (extras ++ save_data cfg st) b).night_owl_handshakes =
    st.night_owl_handshakes ∧
  (load_data cfg (extras ++ save_data cfg st) b).enc_types_captured =
    st.enc_types_captured ∧
  (load_data cfg (extras ++ save_data cfg st) b).personality_aggro =
    st.personality_aggro ∧
  (load_data cfg (extras ++ save_data cfg st) b).personality_stealth =
    st.personality_stealth ∧
  (load_data cfg (extras ++ save_data cfg st) b).personality_scholar =
    st.personality_scholar ∧
  (load_data cfg (extras ++ save_data cfg st) b).travel_xp = st.travel_xp ∧
  (load_data cfg (extras ++ save_data cfg st) b).travel_level =
    st.travel_level ∧
  (load_data cfg (extras ++ save_data cfg st) b).unique_essids =
    st.unique_essids ∧
  (load_data cfg (extras ++ save_data cfg st) b).unique_bssids =
    st.unique_bssids ∧
  (load_data cfg (extras ++ save_data cfg st) b).unique_ouis =
    st.unique_ouis ∧
  (load_data cfg (extras ++ save_data cfg st) b).unique_channels =
    st.unique_channels ∧
  (load_data cfg (extras ++ save_data cfg st) b).unique_bands =
    st.unique_bands ∧
  (load_data cfg (extras ++ save_data cfg st) b).place_hashes =
    st.place_hashes ∧
  (load_data cfg (extras ++ save_data cfg st) b).last_place_hash =
    st.last_place_hash ∧
  (load_data cfg (extras ++ save_data cfg st) b).prev_age_title =
    get_age_title cfg st ∧
  (load_data cfg (extras ++ save_data cfg st) b).prev_strength_title =
    get_strength_title cfg st ∧
  (load_data cfg (extras ++ save_data cfg st) b).active_event =
    b.active_event ∧
  (load_data cfg (extras ++ save_data cfg st) b).event_handshakes_left =
    b.event_handshakes_left ∧
  (load_data cfg (extras ++ save_data cfg st) b).event_multiplier =
    b.event_multiplier

/-- A state with its in-memory previous-title field out of sync with the
title its counters resolve to (epochs 0 resolves to the floor "Unborn"). -/
def c1State : AgeState := { initState with prev_age_title := "Cosmic Hatchling" }

/-- C1 counterexample: saving and loading does *not* reproduce
`prev_age_title`, because `save_data` writes the currently resolved title
(line 589) instead of the stored field — the state comes back with "Unborn"
in place of "Cosmic Hatchling". -/
theorem round_trip_loses_prev_title :
    (load_data defaultConfig (save_data defaultConfig c1State) initState
      ).prev_age_title ≠ c1State.prev_age_title := by decide

/-- C1 amended: the save/load round trip reproduces every persisted field of
the state (the counters, the streak, the night-owl counter, the encryption
set, the personality points, and all Traveler fields), ignores unknown extra
keys in the file without error, but replaces `prev_age_title` /
`prev_strength_title` by the titles resolved from the saved counters and does
not persist the active bonus event at all. -/
theorem save_load_round_trip (cfg : Config) (st b : AgeState)
    (extras : List (String × JVal))
    (h1 : st.enc_types_captured.Nodup) (h2 : st.unique_essids.Nodup)
    (h3 : st.unique_bssids.Nodup) (h4 : st.unique_ouis.Nodup)
    (h5 : st.unique_channels.Nodup) (h6 : st.unique_bands.Nodup)
    (h7 : st.place_hashes.Nodup)
    (hext : ∀ p ∈ extras, p.1 ∉ knownKeys) :
    roundTripSpec cfg st b extras := by
  unfold roundTripSpec
  rw [load_data_extras cfg extras (save_data cfg st) b hext]
  cases hlp : st.last_place_hash <;>
    simp [load_data, save_data, getNat, getInt, getStr, getArr, getOptStr,
      jget, hlp, h1.dedup, h2.dedup, h3.dedup, h4.dedup, h5.dedup, h6.dedup,
      h7.dedup, get_age_title, get_strength_title]

/-- A populated state with duplicate-free set fields, for the round-trip
witness. -/
def c1PopulatedState : AgeState :=
  { initState with
      epochs := 250, train_epochs := 25, network_points := 77,
      handshake_count := 3, last_active_epoch := 240, streak := 2,
      night_owl_handshakes := 4, enc_types_captured := ["wpa2", "wep"],
      personality_aggro := 3, personality_scholar := 25, travel_xp := 60,
      travel_level := 1, unique_essids := ["a", "b"], unique_bssids := ["x"],
      unique_ouis := ["o"], unique_channels := ["6"],
      unique_bands := ["2.4"], place_hashes := ["p1"],
      last_place_hash := some "p1" }

/-- C1 witness: the amended round-trip spec at a concrete populated state and
a file carrying one unknown extra key, all hypotheses discharged by
computation. -/
theorem save_load_round_trip_witness :
    roundTripSpec defaultConfig c1PopulatedState initState
      [("future_schema_key", JVal.num 7)] :=
  save_load_round_trip defaultConfig c1PopulatedState initState
    [("future_schema_key", JVal.num 7)] (by decide) (by decide) (by decide)
    (by decide) (by decide) (by decide) (by decide) (by decide)

end AgePlugin
